import Mathlib

/-!
Verification of the jobly-backend SQL-fragment builders and the Company/Job
data-access routines.

The JavaScript source is shallowly embedded: JS runtime values become the
inductive `JsVal`; JS objects (whose `Object.keys` order is key-insertion
order) become association lists `List (String × JsVal)`; thrown errors become
`Except JsError`.  The pure fragment builders (`sqlForPartialUpdate`,
`Company._sqlWhereBuilder`, `Job._sqlWhereBuilder`) are translated directly
from the source.  The relational database engine is out of scope of the
repository (an external collaborator per the spec), so the execution of the
generated statements is modelled from the spec where a claim needs it; those
definitions are marked `Modelled from the spec`.
-/

/-- JavaScript runtime values, as far as the embedded code distinguishes
them: `undefined`, `null`, booleans, numbers and strings. -/
inductive JsVal where
  | undefined
  | null
  | bool (b : Bool)
  | num (n : Int)
  | str (s : String)
deriving DecidableEq, Repr

/-- JS test `x === undefined`. -/
def JsVal.isUndefined : JsVal → Bool
  | .undefined => true
  | _ => false

/-- JS test `x === true` (strict equality with the boolean true). -/
def JsVal.isTrue : JsVal → Bool
  | .bool true => true
  | _ => false

/-- JS string coercion as used by template literals. -/
def jsToString : JsVal → String
  | .undefined => "undefined"
  | .null => "null"
  | .bool true => "true"
  | .bool false => "false"
  | .num n => toString n
  | .str s => s

/-- JS property read `obj[k]`: the stored value when the key is present,
`undefined` otherwise. -/
def getProp (obj : List (String × JsVal)) (k : String) : JsVal :=
  match obj.lookup k with
  | some v => v
  | none => .undefined

/-- JS `a || b` specialised to an optional string on the left: the empty
string is falsy, so both a missing key and an empty-string value fall back
to the default. -/
def jsOrElse (v : Option String) (d : String) : String :=
  match v with
  | some s => if s = "" then d else s
  | none => d

deriving instance DecidableEq for Except

/-- Errors raised by the embedded code: the repository's `BadRequestError`
and `NotFoundError`, the JS runtime's `TypeError`, and opaque errors coming
back from the database driver. -/
inductive JsError where
  | badRequest (msg : String)
  | notFound (msg : String)
  | typeError (msg : String)
  | databaseError
deriving DecidableEq, Repr

/-! ### helpers/sql.js -/

/-- The column list built by `keys.map((colName, idx) => ...)` in
`sqlForPartialUpdate`: one clause per key, carrying the running JS map
index (`idx`, 0-based; the emitted position is `idx + 1`). -/
def buildCols (jsToSql : List (String × String)) : List String → Nat → List String
  | [], _ => []
  | k :: ks, idx =>
    ("\"" ++ jsOrElse (jsToSql.lookup k) k ++ "\"=$" ++ toString (idx + 1))
      :: buildCols jsToSql ks (idx + 1)

/-- Embedding of `sqlForPartialUpdate(dataToUpdate, jsToSql)` from
src/helpers/sql.js: throws `BadRequestError("No data")` on an empty field
map, otherwise returns the `setCols` fragment (clauses joined with `", "`)
and the `values` array (`Object.values(dataToUpdate)`). -/
def sqlForPartialUpdate (dataToUpdate : List (String × JsVal))
    (jsToSql : List (String × String)) : Except JsError (String × List JsVal) :=
  let keys := dataToUpdate.map Prod.fst
  if keys.isEmpty then .error (.badRequest "No data")
  else
    .ok (String.intercalate ", " (buildCols jsToSql keys 0),
         dataToUpdate.map Prod.snd)

/-! ### Where-clause builders (src/models/company.js, Job model) -/

/-- Embedding of `Company._sqlWhereBuilder(name, min, max)`: pushes, in this
fixed order, a `name ILIKE` clause (binding `%name%`), a
`num_employees >= ` clause and a `num_employees <= ` clause for each
defined criterion; the emitted parameter number is the length of the value
array after the corresponding push.  Always prefixes `"WHERE "`. -/
def Company._sqlWhereBuilder (name mn mx : JsVal) : String × List JsVal :=
  let acc : List String × List JsVal := ([], [])
  let acc :=
    if name.isUndefined then acc
    else (acc.1 ++ ["name ILIKE $" ++ toString (acc.2.length + 1)],
          acc.2 ++ [JsVal.str ("%" ++ jsToString name ++ "%")])
  let acc :=
    if mn.isUndefined then acc
    else (acc.1 ++ ["num_employees >= $" ++ toString (acc.2.length + 1)],
          acc.2 ++ [mn])
  let acc :=
    if mx.isUndefined then acc
    else (acc.1 ++ ["num_employees <= $" ++ toString (acc.2.length + 1)],
          acc.2 ++ [mx])
  ("WHERE " ++ String.intercalate " AND " acc.1, acc.2)

/-- Embedding of `Job._sqlWhereBuilder(minSalary, hasEquity, title,
companyHandle)`: criteria evaluated in this fixed order; `hasEquity` fires
only on the strict boolean `true` and pushes no value; the substring
criteria bind `%value%`. -/
def Job._sqlWhereBuilder (minSalary hasEquity title companyHandle : JsVal) :
    String × List JsVal :=
  let acc : List String × List JsVal := ([], [])
  let acc :=
    if minSalary.isUndefined then acc
    else (acc.1 ++ ["salary >= $" ++ toString (acc.2.length + 1)],
          acc.2 ++ [minSalary])
  let acc :=
    if hasEquity.isTrue then (acc.1 ++ ["equity > 0"], acc.2) else acc
  let acc :=
    if title.isUndefined then acc
    else (acc.1 ++ ["title ILIKE $" ++ toString (acc.2.length + 1)],
          acc.2 ++ [JsVal.str ("%" ++ jsToString title ++ "%")])
  let acc :=
    if companyHandle.isUndefined then acc
    else (acc.1 ++ ["company_handle ILIKE $" ++ toString (acc.2.length + 1)],
          acc.2 ++ [JsVal.str ("%" ++ jsToString companyHandle ++ "%")])
  ("WHERE " ++ String.intercalate " AND " acc.1, acc.2)

/-- The where-clause and bound values `Company.findAll(filterBy)` passes to
`db.query`: empty when `filterBy` is not an object or has no keys;
otherwise the builder is invoked on the destructured properties `name`,
`minEmp` and `maxEmp` of the filter object. -/
def Company.findAllParts (filterBy : Option (List (String × JsVal))) :
    String × List JsVal :=
  match filterBy with
  | some fb =>
    if fb.isEmpty then ("", [])
    else Company._sqlWhereBuilder (getProp fb "name") (getProp fb "minEmp")
          (getProp fb "maxEmp")
  | none => ("", [])

/-- The where-clause and bound values `Job.findAll(filterBy)` passes to
`db.query`: empty when `filterBy` is not an object or has no keys;
otherwise the builder is invoked on the destructured properties
`minSalary`, `hasEquity`, `title` and `companyHandle`. -/
def Job.findAllParts (filterBy : Option (List (String × JsVal))) :
    String × List JsVal :=
  match filterBy with
  | some fb =>
    if fb.isEmpty then ("", [])
    else Job._sqlWhereBuilder (getProp fb "minSalary") (getProp fb "hasEquity")
          (getProp fb "title") (getProp fb "companyHandle")
  | none => ("", [])

/-! ### Stored rows and the modelled database engine -/

/-- A row of the jobs table as returned by the queries (`equity` is a SQL
NUMERIC, held exactly). -/
structure JobRow where
  id : Int
  title : String
  salary : Option Int
  equity : Option Rat
  companyHandle : String
deriving DecidableEq, Repr

/-- A row of the companies table. -/
structure CompanyRow where
  handle : String
  name : String
  description : String
  numEmployees : Option Int
  logoUrl : Option String
deriving DecidableEq, Repr

/-- Code-point comparison of characters, used for the modelled `ORDER BY`. -/
def strLeChars : List Char → List Char → Bool
  | [], _ => true
  | _ :: _, [] => false
  | a :: as, b :: bs =>
    if a.toNat < b.toNat then true
    else if b.toNat < a.toNat then false
    else strLeChars as bs

/-- Lexicographic string comparison by code points. -/
def strLe (a b : String) : Bool := strLeChars a.data b.data

/-- Ordering of job rows by title, the `ORDER BY title` key. -/
def jobTitleLe (a b : JobRow) : Prop := strLe a.title b.title = true

instance : DecidableRel jobTitleLe := fun a b =>
  inferInstanceAs (Decidable (strLe a.title b.title = true))

/-- Ordering of company rows by name, the `ORDER BY name` key. -/
def companyNameLe (a b : CompanyRow) : Prop := strLe a.name b.name = true

instance : DecidableRel companyNameLe := fun a b =>
  inferInstanceAs (Decidable (strLe a.name b.name = true))

/-- Modelled from the spec: sorting performed by the database's
`ORDER BY title` on the jobs SELECT. -/
def sortJobs (rows : List JobRow) : List JobRow := List.insertionSort jobTitleLe rows

/-- Modelled from the spec: sorting performed by the database's
`ORDER BY name` on the companies SELECT. -/
def sortCompanies (rows : List CompanyRow) : List CompanyRow :=
  List.insertionSort companyNameLe rows

/-- ASCII lowering of one character (case-insensitivity of ILIKE). -/
def lowerChar (c : Char) : Char :=
  if 65 ≤ c.toNat ∧ c.toNat ≤ 90 then Char.ofNat (c.toNat + 32) else c

/-- Whether the first list is a prefix of the second. -/
def charsPrefixOf : List Char → List Char → Bool
  | [], _ => true
  | _ :: _, [] => false
  | a :: as, b :: bs => a == b && charsPrefixOf as bs

/-- Whether the second list occurs contiguously inside the first. -/
def charsContain (s pat : List Char) : Bool :=
  match s with
  | [] => pat.isEmpty
  | _ :: rest => charsPrefixOf pat s || charsContain rest pat

/-- Modelled from the spec: SQL `col ILIKE '%pat%'` — case-insensitive
substring match. -/
def ilikeSub (s pat : String) : Bool :=
  charsContain (s.data.map lowerChar) (pat.data.map lowerChar)

/-- Modelled from the spec: SQL `col >= $n` on an integer column; a NULL
column or a non-numeric bound never compares true. -/
def intGe (col : Option Int) (v : JsVal) : Bool :=
  match col, v with
  | some s, .num n => decide (n ≤ s)
  | _, _ => false

/-- Modelled from the spec: SQL `col <= $n` on an integer column. -/
def intLe (col : Option Int) (v : JsVal) : Bool :=
  match col, v with
  | some s, .num n => decide (s ≤ n)
  | _, _ => false

/-- Modelled from the spec: SQL `equity > 0` (NULL compares false). -/
def ratPos : Option Rat → Bool
  | some q => decide (0 < q)
  | none => false

/-- Modelled from the spec: whether a job row satisfies the conjunction of
the active criteria of the generated where-clause. -/
def jobMatches (minSalary hasEquity title companyHandle : JsVal) (r : JobRow) :
    Bool :=
  (minSalary.isUndefined || intGe r.salary minSalary) &&
  (!hasEquity.isTrue || ratPos r.equity) &&
  (title.isUndefined || ilikeSub r.title (jsToString title)) &&
  (companyHandle.isUndefined || ilikeSub r.companyHandle (jsToString companyHandle))

/-- Modelled from the spec: whether a company row satisfies the conjunction
of the active criteria of the generated where-clause. -/
def companyMatches (name mn mx : JsVal) (r : CompanyRow) : Bool :=
  (name.isUndefined || ilikeSub r.name (jsToString name)) &&
  (mn.isUndefined || intGe r.numEmployees mn) &&
  (mx.isUndefined || intLe r.numEmployees mx)

/-- Embedding of `Job.findAll(filterBy)` over a modelled jobs table: builds
the where-clause exactly as the source does, then (Modelled from the spec)
the engine rejects the malformed dangling `"WHERE "` statement and
otherwise returns the matching rows ordered by title. -/
def Job.findAll (rows : List JobRow) (filterBy : Option (List (String × JsVal))) :
    Except JsError (List JobRow) :=
  match filterBy with
  | some fb =>
    if fb.isEmpty then .ok (sortJobs rows)
    else
      let m := getProp fb "minSalary"
      let h := getProp fb "hasEquity"
      let t := getProp fb "title"
      let c := getProp fb "companyHandle"
      let parts := Job._sqlWhereBuilder m h t c
      if parts.1 = "WHERE " then .error .databaseError
      else .ok (sortJobs (rows.filter (jobMatches m h t c)))
  | none => .ok (sortJobs rows)

/-- Embedding of `Company.findAll(filterBy)` over a modelled companies
table, analogous to `Job.findAll`; the criteria are read from the filter
object's `name`, `minEmp` and `maxEmp` properties. -/
def Company.findAll (rows : List CompanyRow)
    (filterBy : Option (List (String × JsVal))) :
    Except JsError (List CompanyRow) :=
  match filterBy with
  | some fb =>
    if fb.isEmpty then .ok (sortCompanies rows)
    else
      let n := getProp fb "name"
      let mn := getProp fb "minEmp"
      let mx := getProp fb "maxEmp"
      let parts := Company._sqlWhereBuilder n mn mx
      if parts.1 = "WHERE " then .error .databaseError
      else .ok (sortCompanies (rows.filter (companyMatches n mn mx)))
  | none => .ok (sortCompanies rows)

/-! ### Company.get -/

/-- A JS Promise, modelled by its eventual settlement. -/
structure JsPromise (α : Type) where
  resolved : Except JsError α

/-- The object `Company.get` returns on success: the company row with a
`jobs` property.  In the source `Job.findAll(...)` is not awaited, so the
property holds a pending Promise, not a row array. -/
structure CompanyWithJobs where
  handle : String
  name : String
  description : String
  numEmployees : Option Int
  logoUrl : Option String
  jobs : JsPromise (List JobRow)

/-- Embedding of `Company.get(handle)`: selects the row, then assigns
`company["jobs"] = Job.findAll({companyHandle: handle})` (un-awaited)
BEFORE the `if (!company)` not-found check — so when no row matched, the
property assignment on `undefined` raises a `TypeError` and the
`NotFoundError` branch is unreachable. -/
def Company.get (companies : List CompanyRow) (jobs : List JobRow)
    (handle : String) : Except JsError CompanyWithJobs :=
  let rows := companies.filter (fun c => c.handle = handle)
  let jobsPromise : JsPromise (List JobRow) :=
    ⟨Job.findAll jobs (some [("companyHandle", .str handle)])⟩
  match rows.head? with
  | none => .error (.typeError "Cannot set properties of undefined (setting jobs)")
  | some c =>
    .ok ⟨c.handle, c.name, c.description, c.numEmployees, c.logoUrl, jobsPromise⟩

/-! ### update -/

/-- The field map `Company.update` passes to `sqlForPartialUpdate`. -/
def companyJsToSql : List (String × String) :=
  [("numEmployees", "num_employees"), ("logoUrl", "logo_url")]

/-- The field map `Job.update` passes to `sqlForPartialUpdate` (empty: the
updatable job columns already match their logical names). -/
def jobJsToSql : List (String × String) := []

/-- Columns of the jobs table (used by the modelled engine to reject a SET
clause naming an unknown column). -/
def jobColumns : List String := ["id", "title", "salary", "equity", "company_handle"]

/-- Columns of the companies table. -/
def companyColumns : List String :=
  ["handle", "name", "description", "num_employees", "logo_url"]

/-- The pieces of the UPDATE statement `Job.update` builds: the `setCols`
fragment from the partial-update builder, the primary-key placeholder
`"$" ++ (values.length + 1)`, and the parameter array `[...values, id]`. -/
def Job.updateQueryParts (id : Int) (data : List (String × JsVal)) :
    Except JsError (String × String × List JsVal) :=
  match sqlForPartialUpdate data jobJsToSql with
  | .error e => .error e
  | .ok (setCols, values) =>
    .ok (setCols, "$" ++ toString (values.length + 1), values ++ [JsVal.num id])

/-- The pieces of the UPDATE statement `Company.update` builds. -/
def Company.updateQueryParts (handle : String) (data : List (String × JsVal)) :
    Except JsError (String × String × List JsVal) :=
  match sqlForPartialUpdate data companyJsToSql with
  | .error e => .error e
  | .ok (setCols, values) =>
    .ok (setCols, "$" ++ toString (values.length + 1), values ++ [JsVal.str handle])

/-- Modelled from the spec: decimal NUMERIC literal parsing (used when a SET
value arrives as a string, the way the pg driver represents NUMERIC). -/
def parseNatChars (cs : List Char) : Option Nat :=
  if cs.isEmpty then none
  else
    cs.foldl
      (fun acc c =>
        match acc with
        | none => none
        | some n => if c.isDigit then some (n * 10 + (c.toNat - 48)) else none)
      (some 0)

/-- Modelled from the spec: parse a non-negative decimal string to an exact
rational. -/
def parseDecRat (s : String) : Option Rat :=
  let intPart := s.data.takeWhile (fun c => c != '.')
  let rest := s.data.dropWhile (fun c => c != '.')
  match rest with
  | [] => (parseNatChars intPart).map (fun n => (n : Rat))
  | _ :: frac =>
    match parseNatChars intPart, parseNatChars frac with
    | some i, some f => some ((i : Rat) + (f : Rat) / ((10 : Rat) ^ frac.length))
    | _, _ => none

/-- Modelled from the spec: the effect of one SET assignment on a job row. -/
def applyJobField (r : JobRow) (kv : String × JsVal) : JobRow :=
  match kv.1, kv.2 with
  | "title", .str s => { r with title := s }
  | "salary", .num n => { r with salary := some n }
  | "salary", .null => { r with salary := none }
  | "equity", .num n => { r with equity := some (n : Rat) }
  | "equity", .str s => { r with equity := parseDecRat s }
  | "equity", .null => { r with equity := none }
  | _, _ => r

/-- Modelled from the spec: the effect of the whole SET clause on a job row. -/
def applyJobData (data : List (String × JsVal)) (r : JobRow) : JobRow :=
  data.foldl applyJobField r

/-- Modelled from the spec: the effect of one SET assignment on a company
row. -/
def applyCompanyField (r : CompanyRow) (kv : String × JsVal) : CompanyRow :=
  match kv.1, kv.2 with
  | "name", .str s => { r with name := s }
  | "description", .str s => { r with description := s }
  | "numEmployees", .num n => { r with numEmployees := some n }
  | "numEmployees", .null => { r with numEmployees := none }
  | "logoUrl", .str s => { r with logoUrl := some s }
  | "logoUrl", .null => { r with logoUrl := none }
  | _, _ => r

/-- Modelled from the spec: the effect of the whole SET clause on a company
row. -/
def applyCompanyData (data : List (String × JsVal)) (r : CompanyRow) : CompanyRow :=
  data.foldl applyCompanyField r

/-- Embedding of `Job.update(id, data)` over a modelled jobs table: builds
the statement exactly as the source does (so an empty `data` surfaces the
builder's BadRequestError), then (Modelled from the spec) the engine
rejects a SET clause naming an unknown column, updates the matching rows,
and the code raises `NotFoundError` when no row came back.  Returns the
result together with the post-state of the table. -/
def Job.update (jobs : List JobRow) (id : Int) (data : List (String × JsVal)) :
    Except JsError JobRow × List JobRow :=
  match Job.updateQueryParts id data with
  | .error e => (.error e, jobs)
  | .ok _ =>
    if data.all (fun kv => jobColumns.contains (jsOrElse (jobJsToSql.lookup kv.1) kv.1)) then
      let updated := jobs.map fun r => if r.id = id then applyJobData data r else r
      match (updated.filter fun r => r.id = id).head? with
      | none => (.error (.notFound ("No job: " ++ toString id)), jobs)
      | some r => (.ok r, updated)
    else (.error .databaseError, jobs)

/-- Embedding of `Company.update(handle, data)`, analogous to
`Job.update`. -/
def Company.update (companies : List CompanyRow) (handle : String)
    (data : List (String × JsVal)) :
    Except JsError CompanyRow × List CompanyRow :=
  match Company.updateQueryParts handle data with
  | .error e => (.error e, companies)
  | .ok _ =>
    if data.all (fun kv => companyColumns.contains (jsOrElse (companyJsToSql.lookup kv.1) kv.1)) then
      let updated := companies.map fun r =>
        if r.handle = handle then applyCompanyData data r else r
      match (updated.filter fun r => r.handle = handle).head? with
      | none => (.error (.notFound ("No company: " ++ handle)), companies)
      | some r => (.ok r, updated)
    else (.error .databaseError, companies)

/-! ### Spec-side descriptions used by refinement statements -/

/-- Clause list and value list exactly as the spec words the partial-update
algorithm: walk the keys in order from position `pos`, resolve the physical
name through the field map (falling back to the key), emit
`"<physical>"=$<position>` and the value at the same position. -/
def specUpdateClauses (fields : List (String × JsVal))
    (fieldMap : List (String × String)) (pos : Nat) : List String × List JsVal :=
  match fields with
  | [] => ([], [])
  | (k, v) :: rest =>
    let phys := jsOrElse (fieldMap.lookup k) k
    let tail := specUpdateClauses rest fieldMap (pos + 1)
    (("\"" ++ phys ++ "\"=$" ++ toString pos) :: tail.1, v :: tail.2)

/-- The fragment of the Job where-builder as a function of the four
activation flags alone (positions determined by which earlier criteria are
active). -/
def jobFragOf (a1 a2 a3 a4 : Bool) : String :=
  "WHERE " ++ String.intercalate " AND "
    ((if a1 then ["salary >= $1"] else []) ++
     (if a2 then ["equity > 0"] else []) ++
     (if a3 then ["title ILIKE $" ++ toString (cond a1 1 0 + 1)] else []) ++
     (if a4 then
        ["company_handle ILIKE $" ++ toString (cond a1 1 0 + cond a3 1 0 + 1)]
      else []))

/-- The value list of the Job where-builder: the defined criteria in order,
substring criteria wrapped as `%value%`; `hasEquity` contributes none. -/
def jobValsOf (m t c : JsVal) (a1 a3 a4 : Bool) : List JsVal :=
  (if a1 then [m] else []) ++
  (if a3 then [JsVal.str ("%" ++ jsToString t ++ "%")] else []) ++
  (if a4 then [JsVal.str ("%" ++ jsToString c ++ "%")] else [])

/-- The fragment of the Company where-builder as a function of the three
activation flags alone. -/
def companyFragOf (a1 a2 a3 : Bool) : String :=
  "WHERE " ++ String.intercalate " AND "
    ((if a1 then ["name ILIKE $1"] else []) ++
     (if a2 then ["num_employees >= $" ++ toString (cond a1 1 0 + 1)] else []) ++
     (if a3 then
        ["num_employees <= $" ++ toString (cond a1 1 0 + cond a2 1 0 + 1)]
      else []))

/-- The value list of the Company where-builder. -/
def companyValsOf (n mn mx : JsVal) (a1 a2 a3 : Bool) : List JsVal :=
  (if a1 then [JsVal.str ("%" ++ jsToString n ++ "%")] else []) ++
  (if a2 then [mn] else []) ++
  (if a3 then [mx] else [])

/-- The spec's three-job data set (Job1, Job2, Job3). -/
def specJob1 : JobRow := ⟨1, "Job1", some 100, some (1 / 10), "c1"⟩

/-- Second job of the spec's data set. -/
def specJob2 : JobRow := ⟨2, "Job2", some 200, some 0, "c2"⟩

/-- Third job of the spec's data set. -/
def specJob3 : JobRow := ⟨3, "Job3", some 300, some (3 / 10), "c1"⟩

/-! ## Basic lemmas about the embedding -/

theorem strLeChars_total (as bs : List Char) :
    strLeChars as bs = true ∨ strLeChars bs as = true := by
  induction as generalizing bs with
  | nil => exact Or.inl rfl
  | cons a as ih =>
    cases bs with
    | nil => exact Or.inr rfl
    | cons b bs =>
      by_cases h1 : a.toNat < b.toNat
      · exact Or.inl (by simp [strLeChars, h1])
      · by_cases h2 : b.toNat < a.toNat
        · exact Or.inr (by simp [strLeChars, h2])
        · rcases ih bs with h | h
          · exact Or.inl (by simp [strLeChars, h1, h2, h])
          · exact Or.inr (by simp [strLeChars, h1, h2, h])

theorem strLeChars_trans (as bs cs : List Char) (h1 : strLeChars as bs = true)
    (h2 : strLeChars bs cs = true) : strLeChars as cs = true := by
  induction as generalizing bs cs with
  | nil => rfl
  | cons a as ih =>
    cases bs with
    | nil => simp [strLeChars] at h1
    | cons b bs =>
      cases cs with
      | nil => simp [strLeChars] at h2
      | cons c cs =>
        simp only [strLeChars] at h1 h2 ⊢
        split_ifs at h1 h2 ⊢ <;>
          first
            | rfl
            | omega
            | exact ih bs cs h1 h2

instance : IsTotal JobRow jobTitleLe :=
  ⟨fun a b => strLeChars_total a.title.data b.title.data⟩

instance : IsTrans JobRow jobTitleLe :=
  ⟨fun _ _ _ h1 h2 => strLeChars_trans _ _ _ h1 h2⟩

instance : IsTotal CompanyRow companyNameLe :=
  ⟨fun a b => strLeChars_total a.name.data b.name.data⟩

instance : IsTrans CompanyRow companyNameLe :=
  ⟨fun _ _ _ h1 h2 => strLeChars_trans _ _ _ h1 h2⟩

theorem sortJobs_perm (rows : List JobRow) : (sortJobs rows).Perm rows :=
  List.perm_insertionSort _ _

theorem sortJobs_sorted (rows : List JobRow) : List.Sorted jobTitleLe (sortJobs rows) :=
  List.sorted_insertionSort _ _

theorem sortCompanies_perm (rows : List CompanyRow) : (sortCompanies rows).Perm rows :=
  List.perm_insertionSort _ _

theorem sortCompanies_sorted (rows : List CompanyRow) :
    List.Sorted companyNameLe (sortCompanies rows) :=
  List.sorted_insertionSort _ _

theorem job_builder_eq (m h t c : JsVal) :
    Job._sqlWhereBuilder m h t c =
      (jobFragOf (!m.isUndefined) h.isTrue (!t.isUndefined) (!c.isUndefined),
       jobValsOf m t c (!m.isUndefined) (!t.isUndefined) (!c.isUndefined)) := by
  cases hm : m.isUndefined <;> cases hh : h.isTrue <;> cases ht : t.isUndefined <;>
    cases hc : c.isUndefined <;>
      simp [Job._sqlWhereBuilder, jobFragOf, jobValsOf, hm, hh, ht, hc] <;> rfl

theorem company_builder_eq (n mn mx : JsVal) :
    Company._sqlWhereBuilder n mn mx =
      (companyFragOf (!n.isUndefined) (!mn.isUndefined) (!mx.isUndefined),
       companyValsOf n mn mx (!n.isUndefined) (!mn.isUndefined) (!mx.isUndefined)) := by
  cases hn : n.isUndefined <;> cases hmn : mn.isUndefined <;> cases hmx : mx.isUndefined <;>
    simp [Company._sqlWhereBuilder, companyFragOf, companyValsOf, hn, hmn, hmx] <;> rfl

theorem buildCols_eq_spec (M : List (String × String)) (F : List (String × JsVal))
    (idx : Nat) :
    buildCols M (F.map Prod.fst) idx = (specUpdateClauses F M (idx + 1)).1 := by
  induction F generalizing idx with
  | nil => rfl
  | cons kv rest ih => simp [buildCols, specUpdateClauses, ih]

theorem specUpdateClauses_snd (F : List (String × JsVal)) (M : List (String × String))
    (pos : Nat) : (specUpdateClauses F M pos).2 = F.map Prod.snd := by
  induction F generalizing pos with
  | nil => rfl
  | cons kv rest ih => simp [specUpdateClauses, ih]

theorem specUpdateClauses_length (F : List (String × JsVal))
    (M : List (String × String)) (pos : Nat) :
    (specUpdateClauses F M pos).1.length = F.length := by
  induction F generalizing pos with
  | nil => rfl
  | cons kv rest ih => simp [specUpdateClauses, ih]

theorem sqlForPartialUpdate_eq (F : List (String × JsVal)) (M : List (String × String))
    (hF : F ≠ []) :
    sqlForPartialUpdate F M =
      .ok (String.intercalate ", " (buildCols M (F.map Prod.fst) 0), F.map Prod.snd) := by
  cases F with
  | nil => exact absurd rfl hF
  | cons kv rest => rfl

theorem list_map_self {α : Type} (l : List α) (f : α → α) (h : ∀ a ∈ l, f a = a) :
    l.map f = l := by
  induction l with
  | nil => rfl
  | cons a l ih =>
    simp only [List.map_cons, h a (List.mem_cons_self a l),
      ih (fun b hb => h b (List.mem_cons_of_mem a hb))]

theorem company_findAllParts_eq (fb : List (String × JsVal)) (h : fb ≠ []) :
    Company.findAllParts (some fb) =
      Company._sqlWhereBuilder (getProp fb "name") (getProp fb "minEmp")
        (getProp fb "maxEmp") := by
  cases fb with
  | nil => exact absurd rfl h
  | cons a l => rfl

theorem job_findAllParts_eq (fb : List (String × JsVal)) (h : fb ≠ []) :
    Job.findAllParts (some fb) =
      Job._sqlWhereBuilder (getProp fb "minSalary") (getProp fb "hasEquity")
        (getProp fb "title") (getProp fb "companyHandle") := by
  cases fb with
  | nil => exact absurd rfl h
  | cons a l => rfl

theorem job_findAll_ok_sorted (rows l : List JobRow)
    (fb : Option (List (String × JsVal))) (h : Job.findAll rows fb = .ok l) :
    List.Sorted jobTitleLe l := by
  cases fb with
  | none =>
    simp only [Job.findAll] at h
    injection h with h
    subst h
    exact sortJobs_sorted rows
  | some fb =>
    simp only [Job.findAll] at h
    split_ifs at h with h1 h2 <;>
      first
        | (injection h with h; subst h; exact sortJobs_sorted _)
        | exact Except.noConfusion h

theorem company_findAll_ok_sorted (rows l : List CompanyRow)
    (fb : Option (List (String × JsVal))) (h : Company.findAll rows fb = .ok l) :
    List.Sorted companyNameLe l := by
  cases fb with
  | none =>
    simp only [Company.findAll] at h
    injection h with h
    subst h
    exact sortCompanies_sorted rows
  | some fb =>
    simp only [Company.findAll] at h
    split_ifs at h with h1 h2 <;>
      first
        | (injection h with h; subst h; exact sortCompanies_sorted _)
        | exact Except.noConfusion h

/-! ## Claim theorems -/

/-- C1 (amended): for every non-empty field map `F` and every field map `M`,
`sqlForPartialUpdate F M` succeeds and returns the `|F|` clauses described
by the spec-side `specUpdateClauses` walk — one clause per key of `F` in
key order, the i-th clause (1-based) being `"<phys>"=$i` with `<phys>` the
field-map entry when present and non-empty (JS truthiness) and the key
verbatim otherwise — together with the `|F|` values of `F` in the same key
order, indices 1..`|F|` contiguous and aligned 1:1 with the values. -/
theorem C1_partial_update_refines_spec (F : List (String × JsVal))
    (M : List (String × String)) (hF : F ≠ []) :
    sqlForPartialUpdate F M =
      .ok (String.intercalate ", " (specUpdateClauses F M 1).1,
           (specUpdateClauses F M 1).2) ∧
    (specUpdateClauses F M 1).1.length = F.length ∧
    (specUpdateClauses F M 1).2 = F.map Prod.snd := by
  refine ⟨?_, specUpdateClauses_length F M 1, specUpdateClauses_snd F M 1⟩
  rw [sqlForPartialUpdate_eq F M hF, buildCols_eq_spec, specUpdateClauses_snd]

/-- Witness for C1: the spec's two-key example evaluated concretely. -/
theorem C1_partial_update_witness :
    sqlForPartialUpdate [("col1", .str "test1"), ("col2", .str "test2")]
      [("col2", "bbbbb")] =
      .ok ("\"col1\"=$1, \"bbbbb\"=$2", [.str "test1", .str "test2"]) := by
  have h := C1_partial_update_refines_spec
    [("col1", .str "test1"), ("col2", .str "test2")] [("col2", "bbbbb")] (by decide)
  exact h.1.trans (by decide)

/-- Counterexample to C1 as stated: with `M = ⦃a ↦ ""⦄` the key `a` IS
present in `M`, yet the clause uses the key verbatim (`"a"=$1`), not the
mapped empty name — JS `||` treats the empty string as falsy. -/
theorem C1_empty_mapping_counterexample :
    sqlForPartialUpdate [("a", .str "v")] [("a", "")] = .ok ("\"a\"=$1", [.str "v"]) ∧
    sqlForPartialUpdate [("a", .str "v")] [("a", "")] ≠ .ok ("\"\"=$1", [.str "v"]) := by
  decide

/-- C2: fragment text is independent of the caller-supplied values.  For
the partial-update builder the fragment depends only on the key list; for
the Job and Company where-builders it depends only on each criterion's
definedness (and on whether `hasEquity` is exactly `true`); and every value
reaches only the returned value sequence, substring criteria wrapped as
`%value%` (the value characterisations of both builders). -/
theorem C2_fragment_independent_of_values :
    (∀ (F1 F2 : List (String × JsVal)) (M : List (String × String)),
       F1.map Prod.fst = F2.map Prod.fst →
       (sqlForPartialUpdate F1 M).map Prod.fst =
         (sqlForPartialUpdate F2 M).map Prod.fst) ∧
    (∀ m1 h1 t1 c1 m2 h2 t2 c2 : JsVal,
       m1.isUndefined = m2.isUndefined → h1.isTrue = h2.isTrue → t1.isUndefined = t2.isUndefined →
       c1.isUndefined = c2.isUndefined →
       (Job._sqlWhereBuilder m1 h1 t1 c1).1 = (Job._sqlWhereBuilder m2 h2 t2 c2).1) ∧
    (∀ n1 mn1 mx1 n2 mn2 mx2 : JsVal,
       n1.isUndefined = n2.isUndefined → mn1.isUndefined = mn2.isUndefined → mx1.isUndefined = mx2.isUndefined →
       (Company._sqlWhereBuilder n1 mn1 mx1).1 =
         (Company._sqlWhereBuilder n2 mn2 mx2).1) ∧
    (∀ m h t c : JsVal,
       (Job._sqlWhereBuilder m h t c).2 =
         jobValsOf m t c (!m.isUndefined) (!t.isUndefined) (!c.isUndefined)) ∧
    (∀ n mn mx : JsVal,
       (Company._sqlWhereBuilder n mn mx).2 =
         companyValsOf n mn mx (!n.isUndefined) (!mn.isUndefined) (!mx.isUndefined)) := by
  refine ⟨?_, ?_, ?_, ?_, ?_⟩
  · intro F1 F2 M hkeys
    by_cases h1 : F1 = []
    · subst h1
      have h2 : F2 = [] := by cases F2 <;> simp_all
      subst h2
      rfl
    · have h2 : F2 ≠ [] := by
        intro h
        subst h
        cases F1 <;> simp_all
      rw [sqlForPartialUpdate_eq F1 M h1, sqlForPartialUpdate_eq F2 M h2]
      simp [hkeys, Except.map]
  · intro m1 h1 t1 c1 m2 h2 t2 c2 e1 e2 e3 e4
    rw [job_builder_eq, job_builder_eq, e1, e2, e3, e4]
  · intro n1 mn1 mx1 n2 mn2 mx2 e1 e2 e3
    rw [company_builder_eq, company_builder_eq, e1, e2, e3]
  · intro m h t c
    rw [job_builder_eq]
  · intro n mn mx
    rw [company_builder_eq]

/-- Witness for C2: same shapes, different (hostile) values, identical
fragment text; and a substring value reaches only the value list, wrapped
in percent signs. -/
theorem C2_fragment_independence_witness :
    (sqlForPartialUpdate [("c", .str "v1")] []).map Prod.fst =
      (sqlForPartialUpdate [("c", .str ";SELECT * FROM jobs;")] []).map Prod.fst ∧
    (Job._sqlWhereBuilder (.num 1) (.bool true) (.str "a") .undefined).1 =
      (Job._sqlWhereBuilder (.num 999) (.bool true) (.str ";SELECT * FROM jobs;") .undefined).1 ∧
    (Company._sqlWhereBuilder (.str "x") .undefined (.num 5)).1 =
      (Company._sqlWhereBuilder (.str "y") .undefined (.num 7)).1 ∧
    (Job._sqlWhereBuilder .undefined .undefined (.str "t") .undefined).2 = [.str "%t%"] := by
  refine ⟨C2_fragment_independent_of_values.1 _ _ _ (by decide),
    C2_fragment_independent_of_values.2.1 _ _ _ _ _ _ _ _
      (by decide) (by decide) (by decide) (by decide),
    C2_fragment_independent_of_values.2.2.1 _ _ _ _ _ _
      (by decide) (by decide) (by decide),
    (C2_fragment_independent_of_values.2.2.2.1 .undefined .undefined (.str "t") .undefined).trans
      (by decide)⟩

/-- C3: a partial update with zero fields fails with
`BadRequestError "No data"` regardless of the field map, before any query
is issued (the builder is pure and returns the error directly). -/
theorem C3_empty_update_rejected (M : List (String × String)) :
    sqlForPartialUpdate [] M = .error (.badRequest "No data") := rfl

/-- C4: the Job where-builder evaluates its criteria in the fixed order
minSalary, hasEquity, title, companyHandle; each defined criterion takes
the next parameter position (`salary >= $n`, `title ILIKE $n` binding
`%title%`, `company_handle ILIKE $n` binding `%companyHandle%`);
`hasEquity` is active exactly when it is the strict boolean `true`,
contributes the parameterless clause `equity > 0`, and any non-true value
behaves exactly like an absent criterion; active clauses are joined with
`" AND "` after `"WHERE "` (all spelled out by `jobFragOf`/`jobValsOf`). -/
theorem C4_job_where_builder_shape :
    (∀ minSalary hasEquity title companyHandle : JsVal,
       Job._sqlWhereBuilder minSalary hasEquity title companyHandle =
         (jobFragOf (!minSalary.isUndefined) hasEquity.isTrue (!title.isUndefined)
            (!companyHandle.isUndefined),
          jobValsOf minSalary title companyHandle (!minSalary.isUndefined)
            (!title.isUndefined) (!companyHandle.isUndefined))) ∧
    (∀ m h t c : JsVal, h.isTrue = false →
       Job._sqlWhereBuilder m h t c = Job._sqlWhereBuilder m .undefined t c) := by
  refine ⟨fun m h t c => job_builder_eq m h t c, ?_⟩
  intro m h t c hh
  rw [job_builder_eq, job_builder_eq, hh]
  rfl

/-- Witness for C4: the non-boolean string "true" (what the route actually
forwards) is not strictly `true`, so it contributes nothing. -/
theorem C4_job_where_builder_witness :
    Job._sqlWhereBuilder (.num 5) (.str "true") (.str "a") .undefined =
      Job._sqlWhereBuilder (.num 5) .undefined (.str "a") .undefined :=
  C4_job_where_builder_shape.2 (.num 5) (.str "true") (.str "a") .undefined (by decide)

/-- Counterexample to C5 as stated: a filter object carrying the keys
`minEmployees`/`maxEmployees` produces NO employee-count predicates —
`Company.findAll` destructures `minEmp`/`maxEmp`, so both criteria stay
undefined and the builder emits the bare dangling `"WHERE "`. -/
theorem C5_minEmployees_counterexample :
    Company.findAllParts (some [("minEmployees", .num 1), ("maxEmployees", .num 10)]) =
      ("WHERE ", []) ∧
    (Company.findAllParts
        (some [("minEmployees", .num 1), ("maxEmployees", .num 10)])).1 ≠
      "WHERE num_employees >= $1 AND num_employees <= $2" := by
  decide

/-- C5 (amended): `Company.findAll` recognizes the filter-object keys
`name`, `minEmp` and `maxEmp` (not `minEmployees`/`maxEmployees`),
evaluated in the fixed order name, minEmp, maxEmp; `name` yields
`name ILIKE $n` binding `%name%`, `minEmp` yields `num_employees >= $n`,
`maxEmp` yields `num_employees <= $n`; each active criterion takes the
next parameter position and predicates are joined conjunctively
(`companyFragOf`/`companyValsOf` spell out the shapes). -/
theorem C5_company_filter_keys_amended :
    (∀ fb : List (String × JsVal), fb ≠ [] →
       Company.findAllParts (some fb) =
         Company._sqlWhereBuilder (getProp fb "name") (getProp fb "minEmp")
           (getProp fb "maxEmp")) ∧
    (∀ n mn mx : JsVal,
       Company._sqlWhereBuilder n mn mx =
         (companyFragOf (!n.isUndefined) (!mn.isUndefined) (!mx.isUndefined),
          companyValsOf n mn mx (!n.isUndefined) (!mn.isUndefined) (!mx.isUndefined))) :=
  ⟨company_findAllParts_eq, company_builder_eq⟩

/-- Witness for C5: all three recognized criteria active, concretely. -/
theorem C5_company_filter_witness :
    Company.findAllParts
        (some [("name", .str "net"), ("minEmp", .num 2), ("maxEmp", .num 10)]) =
      ("WHERE name ILIKE $1 AND num_employees >= $2 AND num_employees <= $3",
       [.str "%net%", .num 2, .num 10]) := by
  have h := C5_company_filter_keys_amended.1
    [("name", .str "net"), ("minEmp", .num 2), ("maxEmp", .num 10)] (by decide)
  exact h.trans (by decide)

/-- C6: with zero active criteria BOTH where-builders return the dangling
fragment `"WHERE "` with no predicates (and an empty value sequence) — not
the empty fragment the claim (the spec's corrected behaviour) requires;
this holds whether the criteria are absent, `hasEquity` is `false`, or
`hasEquity` is a non-boolean. -/
theorem C6_zero_criteria_dangling_where :
    Company._sqlWhereBuilder .undefined .undefined .undefined = ("WHERE ", []) ∧
    Job._sqlWhereBuilder .undefined .undefined .undefined .undefined = ("WHERE ", []) ∧
    Job._sqlWhereBuilder .undefined (.bool false) .undefined .undefined = ("WHERE ", []) ∧
    Job._sqlWhereBuilder .undefined (.str "true") .undefined .undefined = ("WHERE ", []) := by
  decide

/-- C7: `Company.get` on a missing handle does NOT fail with
`NotFoundError`: the source assigns `company["jobs"]` before the
`if (!company)` guard, so the property assignment on `undefined` raises a
`TypeError` first (shown on an empty store and on a store whose only
company has a different handle). -/
theorem C7_get_missing_handle_typeerror :
    Company.get [] [] "nope" =
      .error (.typeError "Cannot set properties of undefined (setting jobs)") ∧
    Company.get [⟨"c1", "C1", "desc", some 3, none⟩] [] "nope" =
      .error (.typeError "Cannot set properties of undefined (setting jobs)") :=
  ⟨rfl, rfl⟩

/-- C8: for every id/handle and non-empty sparse field map over the
entity's columns, the update statement is built from the partial-update
builder with the entity's field map, the primary-key placeholder is
`$(|data|+1)` and the key value is appended last in the parameter list;
and when no stored row matches, the operation fails with `NotFoundError`
and leaves the table unchanged. -/
theorem C8_update_appends_key_and_not_found :
    (∀ (id : Int) (data : List (String × JsVal)), data ≠ [] →
       ∃ setCols values,
         sqlForPartialUpdate data jobJsToSql = .ok (setCols, values) ∧
         values.length = data.length ∧
         Job.updateQueryParts id data =
           .ok (setCols, "$" ++ toString (data.length + 1), values ++ [JsVal.num id])) ∧
    (∀ (handle : String) (data : List (String × JsVal)), data ≠ [] →
       ∃ setCols values,
         sqlForPartialUpdate data companyJsToSql = .ok (setCols, values) ∧
         values.length = data.length ∧
         Company.updateQueryParts handle data =
           .ok (setCols, "$" ++ toString (data.length + 1),
                values ++ [JsVal.str handle])) ∧
    (∀ (jobs : List JobRow) (id : Int) (data : List (String × JsVal)),
       data ≠ [] →
       data.all (fun kv => jobColumns.contains (jsOrElse (jobJsToSql.lookup kv.1) kv.1))
         = true →
       (∀ r ∈ jobs, r.id ≠ id) →
       Job.update jobs id data = (.error (.notFound ("No job: " ++ toString id)), jobs)) ∧
    (∀ (companies : List CompanyRow) (handle : String) (data : List (String × JsVal)),
       data ≠ [] →
       data.all
           (fun kv => companyColumns.contains (jsOrElse (companyJsToSql.lookup kv.1) kv.1))
         = true →
       (∀ r ∈ companies, r.handle ≠ handle) →
       Company.update companies handle data =
         (.error (.notFound ("No company: " ++ handle)), companies)) := by
  refine ⟨?_, ?_, ?_, ?_⟩
  · intro id data hdata
    refine ⟨_, _, sqlForPartialUpdate_eq data jobJsToSql hdata, by simp, ?_⟩
    simp only [Job.updateQueryParts, sqlForPartialUpdate_eq data jobJsToSql hdata]
    simp
  · intro handle data hdata
    refine ⟨_, _, sqlForPartialUpdate_eq data companyJsToSql hdata, by simp, ?_⟩
    simp only [Company.updateQueryParts, sqlForPartialUpdate_eq data companyJsToSql hdata]
    simp
  · intro jobs id data hdata hcols hno
    have hmap : (jobs.map fun r => if r.id = id then applyJobData data r else r) = jobs :=
      list_map_self jobs _ (fun r hr => if_neg (hno r hr))
    simp only [Job.update, Job.updateQueryParts,
      sqlForPartialUpdate_eq data jobJsToSql hdata, hcols, if_true, hmap]
    have hfil : (jobs.filter fun r => r.id = id) = [] := by
      rw [List.filter_eq_nil_iff]
      intro r hr
      simp [hno r hr]
    rw [hfil]
    rfl
  · intro companies handle data hdata hcols hno
    have hmap :
        (companies.map fun r => if r.handle = handle then applyCompanyData data r else r)
          = companies :=
      list_map_self companies _ (fun r hr => if_neg (hno r hr))
    simp only [Company.update, Company.updateQueryParts,
      sqlForPartialUpdate_eq data companyJsToSql hdata, hcols, if_true, hmap]
    have hfil : (companies.filter fun r => r.handle = handle) = [] := by
      rw [List.filter_eq_nil_iff]
      intro r hr
      simp [hno r hr]
    rw [hfil]
    rfl

/-- Witness for C8: a missing job id and a missing company handle fail with
NotFoundError and leave the stores untouched. -/
theorem C8_update_witness :
    Job.update [specJob1] 99 [("title", .str "x")] =
      (.error (.notFound "No job: 99"), [specJob1]) ∧
    Company.update [⟨"c1", "C1", "d", some 3, none⟩] "nope" [("numEmployees", .num 3)] =
      (.error (.notFound "No company: nope"), [⟨"c1", "C1", "d", some 3, none⟩]) := by
  constructor
  · exact C8_update_appends_key_and_not_found.2.2.1 [specJob1] 99 [("title", .str "x")]
      (by decide) (by decide) (by intro r hr; simp at hr; subst hr; decide)
  · exact C8_update_appends_key_and_not_found.2.2.2 [⟨"c1", "C1", "d", some 3, none⟩]
      "nope" [("numEmployees", .num 3)]
      (by decide) (by decide) (by intro r hr; simp at hr; subst hr; decide)

/-- C9: with filters absent or an empty object both repositories run the
unfiltered query and return ALL stored records (a permutation of the
store) ordered by the display key (title for jobs, name for companies);
every successful result, filtered or not, is so ordered; and on the spec's
three-job data set `findAll {minSalary: 150}` returns exactly Job2 and
Job3 in title order. -/
theorem C9_findAll_unfiltered_and_ordering :
    (∀ rows : List JobRow,
       Job.findAll rows none = .ok (sortJobs rows) ∧
       Job.findAll rows (some []) = .ok (sortJobs rows)) ∧
    (∀ rows : List CompanyRow,
       Company.findAll rows none = .ok (sortCompanies rows) ∧
       Company.findAll rows (some []) = .ok (sortCompanies rows)) ∧
    (∀ rows : List JobRow,
       (sortJobs rows).Perm rows ∧ List.Sorted jobTitleLe (sortJobs rows)) ∧
    (∀ rows : List CompanyRow,
       (sortCompanies rows).Perm rows ∧ List.Sorted companyNameLe (sortCompanies rows)) ∧
    (∀ (rows l : List JobRow) (fb : Option (List (String × JsVal))),
       Job.findAll rows fb = .ok l → List.Sorted jobTitleLe l) ∧
    (∀ (rows l : List CompanyRow) (fb : Option (List (String × JsVal))),
       Company.findAll rows fb = .ok l → List.Sorted companyNameLe l) ∧
    Job.findAll [specJob1, specJob2, specJob3] (some [("minSalary", .num 150)]) =
      .ok [specJob2, specJob3] := by
  refine ⟨fun rows => ⟨rfl, rfl⟩, fun rows => ⟨rfl, rfl⟩,
    fun rows => ⟨sortJobs_perm rows, sortJobs_sorted rows⟩,
    fun rows => ⟨sortCompanies_perm rows, sortCompanies_sorted rows⟩,
    job_findAll_ok_sorted, company_findAll_ok_sorted, by rfl⟩

/-- Witness for C9: the concrete filtered result is sorted by title. -/
theorem C9_findAll_witness :
    List.Sorted jobTitleLe [specJob2, specJob3] :=
  C9_findAll_unfiltered_and_ordering.2.2.2.2.1 [specJob1, specJob2, specJob3]
    [specJob2, specJob3] (some [("minSalary", .num 150)]) (by rfl)

/-- C10: `Company.findAll` reads the bounds from the keys `minEmp` and
`maxEmp` (which produce `num_employees >= $n` / `num_employees <= $n`),
its output depends only on the `name`/`minEmp`/`maxEmp` properties of a
non-empty filter object (so `minEmployees`/`maxEmployees` are never read),
and a filter carrying only those two unread keys merely routes the call
through the builder with every criterion undefined. -/
theorem C10_company_minEmp_maxEmp_keys :
    (∀ fb : List (String × JsVal), fb ≠ [] →
       Company.findAllParts (some fb) =
         Company._sqlWhereBuilder (getProp fb "name") (getProp fb "minEmp")
           (getProp fb "maxEmp")) ∧
    (∀ fb1 fb2 : List (String × JsVal), fb1 ≠ [] → fb2 ≠ [] →
       getProp fb1 "name" = getProp fb2 "name" →
       getProp fb1 "minEmp" = getProp fb2 "minEmp" →
       getProp fb1 "maxEmp" = getProp fb2 "maxEmp" →
       Company.findAllParts (some fb1) = Company.findAllParts (some fb2)) ∧
    (∀ v : JsVal, v.isUndefined = false →
       Company._sqlWhereBuilder .undefined v .undefined = ("WHERE num_employees >= $1", [v]) ∧
       Company._sqlWhereBuilder .undefined .undefined v = ("WHERE num_employees <= $1", [v])) ∧
    (∀ v w : JsVal,
       Company.findAllParts (some [("minEmployees", v), ("maxEmployees", w)]) =
         ("WHERE ", [])) := by
  refine ⟨company_findAllParts_eq, ?_, ?_, fun v w => rfl⟩
  · intro fb1 fb2 h1 h2 e1 e2 e3
    rw [company_findAllParts_eq fb1 h1, company_findAllParts_eq fb2 h2, e1, e2, e3]
  · intro v hv
    cases v with
    | undefined => simp [JsVal.isUndefined] at hv
    | null => exact ⟨rfl, rfl⟩
    | bool b => exact ⟨rfl, rfl⟩
    | num n => exact ⟨rfl, rfl⟩
    | str s => exact ⟨rfl, rfl⟩

/-- Witness for C10: `minEmp` is read; `minEmployees`/`maxEmployees` are
not. -/
theorem C10_company_keys_witness :
    Company.findAllParts (some [("minEmp", .num 3)]) =
      ("WHERE num_employees >= $1", [.num 3]) ∧
    Company.findAllParts (some [("minEmployees", .num 3), ("maxEmployees", .num 9)]) =
      ("WHERE ", []) := by
  constructor
  · have h := C10_company_minEmp_maxEmp_keys.1 [("minEmp", .num 3)] (by decide)
    exact h.trans (by decide)
  · exact C10_company_minEmp_maxEmp_keys.2.2.2 (.num 3) (.num 9)
